import Mathlib

/-!
Verification of the example tool layer (`Example/Source/Tools.inl`) of the
sequentity repository.

The file under verification implements five interactive "tools"
(select, translate, rotate, scale, scrub) over an entity-component
registry.  Each tool is a sequence of entity queries dispatched on the
three interaction states `Activated` (press), `Active` (hold) and
`Deactivated` (release).  We embed the component data model, the
registry, the Sequentity track/channel/event storage the tools write
into, and each tool function, and prove the frozen claims about them.

Modelling conventions:
* entities are natural numbers; an EnTT registry is a record of
  per-entity component stores (`Entity → Option C`), plus the list of
  live entities (`order`) that views iterate over;
* a `view<C1, C2, ...>(exclude<A>)` is the filter of `order` by
  component presence, folded over with the per-entity lambda body;
* C++ `int` values are `Int`; the one place the code compares a signed
  index against `std::vector::size()` models the implicit conversion of
  the index to `size_t` (`asSizeT`);
* the Sequentity storage engine itself lives in the repository outside
  the sources under verification, so its storage types and the three
  helpers used here (`HasChannel`, `PushChannel`, `PushEvent`) are
  modelled from the spec, as unordered-map/append storage.
-/

namespace Tools

abbrev Entity := Nat

/-- 2D integer position, `struct Position { int x, y; }`. -/
structure Position where
  x : Int
  y : Int
deriving DecidableEq, Repr, Inhabited

/-- `struct Name { const char* text; }` component. -/
structure Name where
  text : String
deriving DecidableEq, Repr, Inhabited

/-- Colours are opaque to the tools: entities carry a `Color` component
(`raw`), channels receive `ImColor::HSV(h, s, v)` constants (`hsv`, the
three arguments in hundredths), and a default-constructed `ImVec4` is
`zero`. -/
inductive Colr
  | zero
  | raw (n : Nat)
  | hsv (h s v : Nat)
deriving DecidableEq, Repr, Inhabited

/-- `struct Activated { int time; }`: the entity has just been pressed. -/
structure Activated where
  time : Int
deriving DecidableEq, Repr, Inhabited

/-- `struct Active { int time; }`: the entity is being held/dragged. -/
structure Active where
  time : Int
deriving DecidableEq, Repr, Inhabited

/-- `struct Deactivated { int time; }`: the entity was just released. -/
structure Deactivated where
  time : Int
deriving DecidableEq, Repr, Inhabited

/-- `struct MoveIntent { int x, y; }` (assigned by the translate tool). -/
structure MoveIntent where
  x : Int
  y : Int
deriving DecidableEq, Repr, Inhabited

/-- `struct InputPosition2D { Position absolute, relative, delta; }`. -/
structure InputPosition2D where
  absolute : Position := {x := 0, y := 0}
  relative : Position := {x := 0, y := 0}
  delta : Position := {x := 0, y := 0}
deriving DecidableEq, Repr, Inhabited

/-- `enum class ToolType : std::uint8_t`. -/
inductive ToolType
  | Select
  | DragSelect
  | LassoSelect
  | Translate
  | Rotate
  | Scale
  | Scrub
deriving DecidableEq, Repr, Inhabited

/-- `enum EventType : Sequentity::EventType`. -/
inductive EventType
  | InvalidEvent
  | SelectEvent
  | LassoSelectEvent
  | DragSelectEvent
  | TranslateEvent
  | RotateEvent
  | ScaleEvent
  | ScrubEvent
  | MousePressEvent
  | MouseMoveEvent
  | MouseReleaseEvent
  | KeyPressEvent
  | KeyReleaseEvent
  | ToolEvent
deriving DecidableEq, Repr, Inhabited

/-- The application payloads the tools hang off a Sequentity event via
`void* data`: `TranslateEventData`, `RotateEventData`, `ScaleEventData`,
`ScrubEventData` and `ToolEventData` (the latter's
`std::unordered_map<int, InputPosition2D>` as an association list). -/
inductive EventData
  | translateData (offset : Position) (positions : List Position)
  | rotateData (orientations : List Int)
  | scaleData (scales : List Int)
  | scrubData (deltas : List Int)
  | toolData (type : ToolType) (input : List (Int × InputPosition2D))
deriving DecidableEq, Repr, Inhabited

/-- Modelled from the spec: the Sequentity storage engine's event record
(the repository's `Sequentity.inl` is outside the verified sources; the
field list is the one the tools populate: `time`, `length`, `color`,
`type`, `data`). -/
structure Sequentity.Event where
  time : Int
  length : Int
  color : Colr
  type : EventType
  data : EventData
deriving DecidableEq, Repr

/-- Modelled from the spec: a Sequentity channel, a labelled, coloured
list of events.  A default-constructed channel (as produced by
`unordered_map::operator[]`) has empty label, zero colour, no events. -/
structure Sequentity.Channel where
  label : String := ""
  color : Colr := .zero
  events : List Sequentity.Event := []
deriving DecidableEq, Repr, Inhabited

/-- Modelled from the spec: a Sequentity track, constructed from a label
and a colour (`Registry.assign<Sequentity::Track>(entity, name.text,
color)`), holding an `unordered_map<EventType, Channel>` modelled as an
association list with unique keys. -/
structure Sequentity.Track where
  label : String := ""
  color : Colr := .zero
  channels : List (EventType × Sequentity.Channel) := []
deriving DecidableEq, Repr, Inhabited

/-- Modelled from the spec: the global `Sequentity::State` context
variable; the tools only touch its `current_time`. -/
structure Sequentity.State where
  current_time : Int
deriving DecidableEq, Repr, Inhabited

/-- Lookup in the channel map (`track.channels.count` / `find`). -/
def chanLookup : List (EventType × Sequentity.Channel) → EventType → Option Sequentity.Channel
  | [], _ => none
  | (k, c) :: rest, ty => if k = ty then some c else chanLookup rest ty

/-- Modelled from the spec: `unordered_map::operator[]` /
`Sequentity::PushChannel` — inserts a default-constructed channel if the
key is absent, otherwise leaves the map unchanged. -/
def chanEnsure (cs : List (EventType × Sequentity.Channel)) (ty : EventType) :
    List (EventType × Sequentity.Channel) :=
  if (chanLookup cs ty).isSome then cs else cs ++ [(ty, default)]

/-- Update the channel stored at a key in place. -/
def chanModify : List (EventType × Sequentity.Channel) → EventType →
    (Sequentity.Channel → Sequentity.Channel) → List (EventType × Sequentity.Channel)
  | [], _, _ => []
  | (k, c) :: rest, ty, f =>
    if k = ty then (k, f c) :: rest else (k, c) :: chanModify rest ty f

/-- Modelled from the spec: `Sequentity::HasChannel(track, type)`. -/
def Sequentity.HasChannel (t : Sequentity.Track) (ty : EventType) : Bool :=
  (chanLookup t.channels ty).isSome

/-- Modelled from the spec: `Sequentity::PushEvent(channel, event)`
appends the event to the channel. -/
def Sequentity.PushEvent (c : Sequentity.Channel) (e : Sequentity.Event) : Sequentity.Channel :=
  { c with events := c.events ++ [e] }

/-- The EnTT registry as seen by `Tools.inl`: one store per component
type used by the tools, the entity list views iterate over, and the
`Sequentity::State` context variable. -/
structure Registry where
  order : List Entity
  name : Entity → Option Name
  color : Entity → Option Colr
  position : Entity → Option Position
  orientation : Entity → Option Int
  size : Entity → Option Int
  activated : Entity → Option Activated
  active : Entity → Option Active
  deactivated : Entity → Option Deactivated
  abort : Entity → Bool
  selected : Entity → Bool
  moveIntent : Entity → Option MoveIntent
  input : Entity → Option InputPosition2D
  track : Entity → Option Sequentity.Track
  seqState : Sequentity.State

/-- `Registry.assign<Sequentity::Track>(e, ...)` / `Registry.get` write-back. -/
def setTrack (r : Registry) (e : Entity) (t : Sequentity.Track) : Registry :=
  { r with track := fun x => if x = e then some t else r.track x }

/-- `Registry.reset<Selected>()`: removes `Selected` from every entity. -/
def resetSelected (r : Registry) : Registry :=
  { r with selected := fun _ => false }

/-- `Registry.assign<Selected>(e)`. -/
def assignSelected (r : Registry) (e : Entity) : Registry :=
  { r with selected := fun x => if x = e then true else r.selected x }

/-- `Registry.assign<MoveIntent>(e, x, y)`. -/
def assignMoveIntent (r : Registry) (e : Entity) (m : MoveIntent) : Registry :=
  { r with moveIntent := fun x => if x = e then some m else r.moveIntent x }

/-- Write to `Registry.ctx<Sequentity::State>().current_time`. -/
def setCurrentTime (r : Registry) (t : Int) : Registry :=
  { r with seqState := { current_time := t } }

/-- `Registry.view<Name, Activated>()` (the `SelectTool` press query). -/
def viewSelectPress (r : Registry) : List Entity :=
  r.order.filter fun e => (r.name e).isSome && (r.activated e).isSome

/-- `Registry.view<Name, Activated, InputPosition2D, Color, Position>()`. -/
def viewTranslatePress (r : Registry) : List Entity :=
  r.order.filter fun e =>
    (r.name e).isSome && (r.activated e).isSome && (r.input e).isSome &&
      (r.color e).isSome && (r.position e).isSome

/-- `Registry.view<Active, InputPosition2D>(entt::exclude<Abort>)`. -/
def viewTranslateHold (r : Registry) : List Entity :=
  r.order.filter fun e => (r.active e).isSome && (r.input e).isSome && !(r.abort e)

/-- `Registry.view<Name, Activated, InputPosition2D, Color, Orientation>()`. -/
def viewRotatePress (r : Registry) : List Entity :=
  r.order.filter fun e =>
    (r.name e).isSome && (r.activated e).isSome && (r.input e).isSome &&
      (r.color e).isSome && (r.orientation e).isSome

/-- `Registry.view<Name, Active, InputPosition2D, Sequentity::Track>(entt::exclude<Abort>)`. -/
def viewRotateHold (r : Registry) : List Entity :=
  r.order.filter fun e =>
    (r.name e).isSome && (r.active e).isSome && (r.input e).isSome &&
      (r.track e).isSome && !(r.abort e)

/-- `Registry.view<Name, Activated, InputPosition2D, Color, Size>()`. -/
def viewScalePress (r : Registry) : List Entity :=
  r.order.filter fun e =>
    (r.name e).isSome && (r.activated e).isSome && (r.input e).isSome &&
      (r.color e).isSome && (r.size e).isSome

/-- The `ScaleTool` hold query, same shape as the rotate one. -/
def viewScaleHold (r : Registry) : List Entity :=
  viewRotateHold r

/-- `Registry.view<Activated, InputPosition2D>()` (the `ScrubTool` press query). -/
def viewScrubPress (r : Registry) : List Entity :=
  r.order.filter fun e => (r.activated e).isSome && (r.input e).isSome

/-- `Registry.view<Active, InputPosition2D>()` (the `ScrubTool` hold query). -/
def viewScrubHold (r : Registry) : List Entity :=
  r.order.filter fun e => (r.active e).isSome && (r.input e).isSome

/-- `Registry.view<Deactivated>()` (every release query iterates it with
an empty body). -/
def viewDeactivated (r : Registry) : List Entity :=
  r.order.filter fun e => (r.deactivated e).isSome

/-- The implicit conversion of a C++ `int` index to `size_t` in
`data->positions.size() > index`: sign extension modulo `2^64`, so a
negative index compares as an enormous unsigned value. -/
def asSizeT (i : Int) : Nat :=
  (i % (2 ^ 64 : Int)).toNat

/-- The shared overwrite-or-append pattern of the hold branches:
`if (xs.size() > index) xs[index] = v; else xs.emplace_back(v);`. -/
def storeAt {α : Type} (xs : List α) (idx : Nat) (v : α) : List α :=
  if xs.length > idx then xs.set idx v else xs ++ [v]

/-- Mutate the last element of a list (`channel.events.back()`); the
C++ precondition is that the list is nonempty. -/
def modifyLast {α : Type} (f : α → α) : List α → List α
  | [] => []
  | [a] => [f a]
  | a :: b :: rest => a :: modifyLast f (b :: rest)

/-- Overwrite-or-insert into `std::unordered_map<int, InputPosition2D>`
(`data->input[time] = _input`). -/
def mapSet (m : List (Int × InputPosition2D)) (k : Int) (v : InputPosition2D) :
    List (Int × InputPosition2D) :=
  match m with
  | [] => [(k, v)]
  | (k', v') :: rest => if k' = k then (k', v) :: rest else (k', v') :: mapSet rest k v

/-- The common shape of the three transform press bodies: ensure the
track exists (created from `name.text` and the entity colour), ensure
the tool's channel exists (labelling/colouring it when new), and push a
fresh event at `state.time + 1` with length 1 carrying the initial
payload `data0`. -/
def pressCore (ty : EventType) (clabel : String) (ccolor : Colr) (data0 : EventData)
    (name : Name) (state : Activated) (color : Colr) (t0 : Option Sequentity.Track) :
    Sequentity.Track :=
  let track := t0.getD { label := name.text, color := color, channels := [] }
  let has_channel := (chanLookup track.channels ty).isSome
  let channels := chanEnsure track.channels ty
  let channels :=
    if has_channel then channels
    else chanModify channels ty fun c => { c with label := clabel, color := ccolor }
  let channels := chanModify channels ty fun c =>
    Sequentity.PushEvent c
      { time := state.time + 1, length := 1, color := color, type := ty, data := data0 }
  { track with channels := channels }

/-- The `TranslateTool` press body after the `record` guard (lines
415-440): fresh `TranslateEventData` whose `positions` holds one
default `Position{}`. -/
def translatePressCore : Name → Activated → Colr → Option Sequentity.Track → Sequentity.Track :=
  pressCore .TranslateEvent "Translate" (.hsv 0 75 75) (.translateData default [default])

/-- The `RotateTool` press body (lines 503-527): fresh `RotateEventData`
with `orientations = {0}`. -/
def rotatePressCore : Name → Activated → Colr → Option Sequentity.Track → Sequentity.Track :=
  pressCore .RotateEvent "Rotate" (.hsv 33 75 75) (.rotateData [0])

/-- The `ScaleTool` press body (lines 584-608): fresh `ScaleEventData`
with `scales = {0}`. -/
def scalePressCore : Name → Activated → Colr → Option Sequentity.Track → Sequentity.Track :=
  pressCore .ScaleEvent "Scale" (.hsv 52 75 50) (.scaleData [0])

/-- One iteration of the `TranslateTool` press query (lines 402-441):
reset and reassign `Selected`, then — only when recording — build the
track/channel/event for the entity. -/
def translatePress1 (record : Bool) (r : Registry) (e : Entity) : Registry :=
  let r1 := assignSelected (resetSelected r) e
  if !record then r1
  else
    setTrack r1 e
      (translatePressCore ((r1.name e).getD default) ((r1.activated e).getD default)
        ((r1.color e).getD default) (r1.track e))

/-- One iteration of a rotate/scale press query: build the
track/channel/event, then reset and reassign `Selected` (the selection
statements come last in those two lambdas). -/
def transformPress1
    (core : Name → Activated → Colr → Option Sequentity.Track → Sequentity.Track)
    (r : Registry) (e : Entity) : Registry :=
  let r1 := setTrack r e
    (core ((r.name e).getD default) ((r.activated e).getD default)
      ((r.color e).getD default) (r.track e))
  assignSelected (resetSelected r1) e

/-- One iteration of the `RotateTool` press query. -/
def rotatePress1 : Registry → Entity → Registry :=
  transformPress1 rotatePressCore

/-- One iteration of the `ScaleTool` press query. -/
def scalePress1 : Registry → Entity → Registry :=
  transformPress1 scalePressCore

/-- One iteration of the `SelectTool` query (lines 378-384). -/
def selectPress1 (r : Registry) (e : Entity) : Registry :=
  assignSelected (resetSelected r) e

/-- `TranslateEventData` payload update of the hold branch: store
`input.delta` into `positions` at the (size_t-converted) index. -/
def translateStore (d : EventData) (idx : Nat) (inp : InputPosition2D) : EventData :=
  match d with
  | .translateData off ps => .translateData off (storeAt ps idx inp.delta)
  | d => d

/-- `RotateEventData` payload update: store `input.delta.x` into
`orientations`. -/
def rotateStore (d : EventData) (idx : Nat) (inp : InputPosition2D) : EventData :=
  match d with
  | .rotateData os => .rotateData (storeAt os idx inp.delta.x)
  | d => d

/-- `ScaleEventData` payload update: store `input.delta.x` into `scales`. -/
def scaleStore (d : EventData) (idx : Nat) (inp : InputPosition2D) : EventData :=
  match d with
  | .scaleData ss => .scaleData (storeAt ss idx inp.delta.x)
  | d => d

/-- The common core of the three hold bodies once the channel is known
to exist: take the channel's last event, compute
`index = state.time - event.time + 1`, store the payload at that index
and set `event.length = index + 1`. -/
def holdCore (ty : EventType) (store : EventData → Nat → InputPosition2D → EventData)
    (state : Active) (input : InputPosition2D) (t : Sequentity.Track) : Sequentity.Track :=
  { t with
    channels := chanModify t.channels ty fun c =>
      { c with
        events := modifyLast (fun ev =>
          let index : Int := state.time - ev.time + 1
          { ev with data := store ev.data (asSizeT index) input, length := index + 1 })
          c.events } }

/-- One iteration of a transform hold query: if the entity's track has
no channel of the tool's type, log a warning and return (leaving the
registry untouched); otherwise run `holdCore` on the track. -/
def transformHold1 (ty : EventType) (store : EventData → Nat → InputPosition2D → EventData)
    (r : Registry) (e : Entity) : Registry :=
  let state := (r.active e).getD default
  let input := (r.input e).getD default
  let track := (r.track e).getD default
  if (chanLookup track.channels ty).isSome then
    setTrack r e (holdCore ty store state input track)
  else r

/-- One iteration of the `TranslateTool` hold query (lines 443-477):
when not recording, merely assign a `MoveIntent` from `input.delta` and
return; when recording, update the track as the other transforms do. -/
def translateHold1 (record : Bool) (r : Registry) (e : Entity) : Registry :=
  if !record then
    let input := (r.input e).getD default
    assignMoveIntent r e { x := input.delta.x, y := input.delta.y }
  else transformHold1 .TranslateEvent translateStore r e

/-- One iteration of the `RotateTool` hold query (lines 533-557). -/
def rotateHold1 : Registry → Entity → Registry :=
  transformHold1 .RotateEvent rotateStore

/-- One iteration of the `ScaleTool` hold query (lines 614-638). -/
def scaleHold1 : Registry → Entity → Registry :=
  transformHold1 .ScaleEvent scaleStore

/-- The `TranslateTool` press branch. -/
def translatePressBranch (record : Bool) (r : Registry) : Registry :=
  (viewTranslatePress r).foldl (translatePress1 record) r

/-- The `RotateTool` press branch. -/
def rotatePressBranch (r : Registry) : Registry :=
  (viewRotatePress r).foldl rotatePress1 r

/-- The `ScaleTool` press branch. -/
def scalePressBranch (r : Registry) : Registry :=
  (viewScalePress r).foldl scalePress1 r

/-- The `TranslateTool` hold branch. -/
def translateHoldBranch (record : Bool) (r : Registry) : Registry :=
  (viewTranslateHold r).foldl (translateHold1 record) r

/-- The `RotateTool` hold branch. -/
def rotateHoldBranch (r : Registry) : Registry :=
  (viewRotateHold r).foldl rotateHold1 r

/-- The `ScaleTool` hold branch. -/
def scaleHoldBranch (r : Registry) : Registry :=
  (viewScaleHold r).foldl scaleHold1 r

/-- Every tool's release branch: iterate `view<Deactivated>` with an
empty lambda body. -/
def releaseBranch (r : Registry) : Registry :=
  (viewDeactivated r).foldl (fun acc _ => acc) r

/-- `static void SelectTool(bool record)` (lines 377-385).  Every tool
additionally threads the value of `ScrubTool`'s function-local
`static int previous_time` so dependence on it can be stated; the four
non-scrub tools neither read nor change it. -/
def SelectTool (record : Bool) (r : Registry) (previous_time : Int) : Registry × Int :=
  ((viewSelectPress r).foldl selectPress1 r, previous_time)

/-- `static void TranslateTool(bool record)` (lines 399-480). -/
def TranslateTool (record : Bool) (r : Registry) (previous_time : Int) : Registry × Int :=
  (releaseBranch (translateHoldBranch record (translatePressBranch record r)), previous_time)

/-- `static void RotateTool(bool record)` (lines 495-560); `record` is
never consulted by its body. -/
def RotateTool (record : Bool) (r : Registry) (previous_time : Int) : Registry × Int :=
  (releaseBranch (rotateHoldBranch (rotatePressBranch r)), previous_time)

/-- `static void ScaleTool(bool record)` (lines 576-641); `record` is
never consulted by its body. -/
def ScaleTool (record : Bool) (r : Registry) (previous_time : Int) : Registry × Int :=
  (releaseBranch (scaleHoldBranch (scalePressBranch r)), previous_time)

/-- `static void ScrubTool(bool record)` (lines 652-668): the press
query copies `current_time` into the static `previous_time`; the hold
query sets `current_time = previous_time + input.relative.x / 10`
(C++ truncating integer division); the release query has an empty body. -/
def ScrubTool (record : Bool) (r : Registry) (previous_time : Int) : Registry × Int :=
  let prev := (viewScrubPress r).foldl (fun _ _ => r.seqState.current_time) previous_time
  let r1 := (viewScrubHold r).foldl (fun acc e =>
    let input := (acc.input e).getD default
    setCurrentTime acc (prev + Int.tdiv input.relative.x 10)) r
  (releaseBranch r1, prev)

/-- The interaction phases a tool function dispatches on: a query over
`Activated` entities (press), over `Active` entities (hold), over
`Deactivated` entities (release). -/
inductive Phase
  | press
  | hold
  | release
deriving DecidableEq, Repr

/-- The sequence of entity queries each tool function runs, transcribed
from the source: `SelectTool` is a single `view<Name, Activated>` query
(lines 377-385); `TranslateTool`, `RotateTool`, `ScaleTool` and
`ScrubTool` each run a press, a hold and a release query, in that
order; no tool function exists for the drag/lasso-select tool types. -/
def toolPhases : ToolType → List Phase
  | .Select => [.press]
  | .DragSelect => []
  | .LassoSelect => []
  | .Translate => [.press, .hold, .release]
  | .Rotate => [.press, .hold, .release]
  | .Scale => [.press, .hold, .release]
  | .Scrub => [.press, .hold, .release]

/-- `TranslateContext`'s private `enum State_` (lines 302-307). -/
inductive State_
  | _None
  | _Activated
  | _Active
  | _Deactivated
deriving DecidableEq, Repr, Inhabited

/-- The mutable fields of `struct TranslateContext` (lines 172-308):
`_entity` (`entt::null` as `none`), `_input`, `_begin_time`, `_state`. -/
structure TranslateContext where
  _entity : Option Entity := none
  _input : InputPosition2D := {}
  _begin_time : Int := 0
  _state : State_ := ._None
deriving DecidableEq, Repr, Inhabited

/-- The `_Active` branch of `TranslateContext::record` once past the
rewind check and the channel check: `data->input[time] = _input` on the
last event's `ToolEventData` and `event.length = time - event.time + 1`. -/
def ctxHoldCore (inp : InputPosition2D) (time : Int) (t : Sequentity.Track) :
    Sequentity.Track :=
  { t with
    channels := chanModify t.channels .TranslateEvent fun c =>
      { c with
        events := modifyLast (fun ev =>
          let dat := match ev.data with
            | .toolData ty m => EventData.toolData ty (mapSet m time inp)
            | d => d
          { ev with data := dat, length := time - ev.time + 1 }) c.events } }

/-- `TranslateContext::record(int time)` (lines 227-290): a no-op when
`_state` is `_None`; on `_Activated`, remember `time` as `_begin_time`
and create the track/channel/event (payload `ToolEventData` of type
`Translate`); on `_Active`, abort to `_None` if `_begin_time > time`,
warn-and-return if the channel is missing, otherwise extend the last
event; on `_Deactivated`, only log. -/
def TranslateContext.record (c : TranslateContext) (time : Int) (r : Registry) :
    TranslateContext × Registry :=
  if c._state = ._None then (c, r)
  else
    let e := c._entity.getD 0
    let (c1, r1) :=
      if c._state = ._Activated then
        let c' := { c with _begin_time := time }
        let name := (r.name e).getD default
        let color := (r.color e).getD default
        let r' :=
          if (r.track e).isSome then r
          else setTrack r e { label := name.text, color := color, channels := [] }
        let data : EventData := .toolData .Translate []
        let track := (r'.track e).getD default
        let new_channel := !(Sequentity.HasChannel track .TranslateEvent)
        let channels := chanEnsure track.channels .TranslateEvent
        let channels :=
          if new_channel then
            chanModify channels .TranslateEvent fun ch =>
              { ch with label := "Translate", color := .hsv 0 75 75 }
          else channels
        let channels := chanModify channels .TranslateEvent fun ch =>
          Sequentity.PushEvent ch
            { time := time, length := 1, color := color, type := .TranslateEvent, data := data }
        (c', setTrack r' e { track with channels := channels })
      else (c, r)
    if c1._state = ._Active then
      if c1._begin_time > time then ({ c1 with _state := ._None }, r1)
      else
        let track := (r1.track e).getD default
        if (chanLookup track.channels .TranslateEvent).isSome then
          (c1, setTrack r1 e (ctxHoldCore c1._input time track))
        else (c1, r1)
    else (c1, r1)

/-- The events of a given channel of an (optional) track; empty when the
track or the channel is absent. -/
def channelEvents (t : Option Sequentity.Track) (ty : EventType) : List Sequentity.Event :=
  match t with
  | none => []
  | some tr =>
    match chanLookup tr.channels ty with
    | none => []
    | some c => c.events

/-- The components of a registry that a transform press body reads to
produce entity `e`'s new track. -/
def pressKey (e : Entity) (b : Registry) :
    Option Name × Option Activated × Option Colr × Option Sequentity.Track :=
  (b.name e, b.activated e, b.color e, b.track e)

/-- The components of a registry that a recording hold body reads to
produce entity `e`'s new track. -/
def holdKey (e : Entity) (b : Registry) :
    Option Active × Option InputPosition2D × Option Sequentity.Track :=
  (b.active e, b.input e, b.track e)

/-- What a recording hold body leaves in the entity's track store, as a
function of the components it reads. -/
def holdTrackF (ty : EventType) (store : EventData → Nat → InputPosition2D → EventData)
    (k : Option Active × Option InputPosition2D × Option Sequentity.Track) :
    Option Sequentity.Track :=
  let track := k.2.2.getD default
  if (chanLookup track.channels ty).isSome then
    some (holdCore ty store (k.1.getD default) (k.2.1.getD default) track)
  else k.2.2

/-- The live transform state of an entity: its `Orientation`, `Size`,
`Position` and `MoveIntent` components. -/
def liveKey (x : Entity) (b : Registry) :
    Option Int × Option Int × Option Position × Option MoveIntent :=
  (b.orientation x, b.size x, b.position x, b.moveIntent x)

/-- A concrete track for tests: one channel per transform event type,
each holding a single event starting at time 4. -/
def wTrack0 : Sequentity.Track :=
  { label := "box"
    color := .raw 5
    channels :=
      [(.TranslateEvent,
        { label := "Translate", color := .hsv 0 75 75
          events := [{ time := 4, length := 1, color := .raw 5, type := .TranslateEvent
                       data := .translateData { x := 0, y := 0 } [{ x := 0, y := 0 }] }] }),
       (.RotateEvent,
        { label := "Rotate", color := .hsv 33 75 75
          events := [{ time := 4, length := 1, color := .raw 5, type := .RotateEvent
                       data := .rotateData [0] }] }),
       (.ScaleEvent,
        { label := "Scale", color := .hsv 52 75 50
          events := [{ time := 4, length := 1, color := .raw 5, type := .ScaleEvent
                       data := .scaleData [0] }] })] }

/-- A concrete registry with three live entities: entity 0 fully
equipped with the track `wTrack0`, entity 1 equipped but aborted and
owning a channel-less track, entity 2 equipped but track-less. -/
def wAll : Registry :=
  { order := [0, 1, 2]
    name := fun e => if e ≤ 2 then some { text := "box" } else none
    color := fun e => if e ≤ 2 then some (.raw 5) else none
    position := fun e => if e ≤ 2 then some { x := 0, y := 0 } else none
    orientation := fun e => if e ≤ 2 then some 0 else none
    size := fun e => if e ≤ 2 then some 1 else none
    activated := fun e => if e ≤ 2 then some { time := 3 } else none
    active := fun e => if e ≤ 2 then some { time := 6 } else none
    deactivated := fun _ => none
    abort := fun e => e == 1
    selected := fun _ => false
    moveIntent := fun _ => none
    input := fun e =>
      if e ≤ 2 then
        some { absolute := { x := 10, y := 10 }, relative := { x := 2, y := 0 }
               delta := { x := 1, y := 2 } }
      else none
    track := fun e =>
      if e = 0 then some wTrack0
      else if e = 1 then some { label := "b", color := .raw 5, channels := [] }
      else none
    seqState := { current_time := 0 } }

/-- A registry with a single entity that is `Active` but not
`Activated`, as on a scrub hold frame. -/
def w7 : Registry :=
  { order := [0]
    name := fun _ => none
    color := fun _ => none
    position := fun _ => none
    orientation := fun _ => none
    size := fun _ => none
    activated := fun _ => none
    active := fun e => if e = 0 then some { time := 2 } else none
    deactivated := fun _ => none
    abort := fun _ => false
    selected := fun _ => false
    moveIntent := fun _ => none
    input := fun e =>
      if e = 0 then
        some { absolute := { x := 0, y := 0 }, relative := { x := 2, y := 0 }
               delta := { x := 0, y := 0 } }
      else none
    track := fun _ => none
    seqState := { current_time := 0 } }

/-- A concrete `TranslateContext` in the `_Active` state whose recorded
begin time lies in the future of the frame being recorded. -/
def wCtx : TranslateContext :=
  { _entity := some 0, _input := {}, _begin_time := 10, _state := ._Active }

/-! ### Generic facts about query folds -/

/-- A fold step that preserves an observation `K` away from `e` leaves
`K` unchanged when `e` is not in the iterated list. -/
theorem foldl_key_not_mem {β κ α : Type} (f : β → α → β) (e : α) (K : β → κ)
    (hne : ∀ b x, x ≠ e → K (f b x) = K b) :
    ∀ (l : List α), e ∉ l → ∀ b, K (l.foldl f b) = K b := by
  intro l
  induction l with
  | nil => intro _ b; rfl
  | cons x xs ih =>
    intro h b
    have hx : x ≠ e := by
      rintro rfl
      exact h (List.mem_cons_self _ _)
    rw [List.foldl_cons, ih (fun hmem => h (List.mem_cons_of_mem _ hmem)), hne b x hx]

/-- If every step away from `e` preserves the observation `K` and the
step at `e` transforms `K` by `F`, then folding over a duplicate-free
list containing `e` transforms `K` by `F`. -/
theorem foldl_key_mem {β κ α : Type} (f : β → α → β) (e : α) (K : β → κ) (F : κ → κ)
    (hne : ∀ b x, x ≠ e → K (f b x) = K b)
    (hself : ∀ b, K (f b e) = F (K b)) :
    ∀ (l : List α), l.Nodup → e ∈ l → ∀ b, K (l.foldl f b) = F (K b) := by
  intro l
  induction l with
  | nil => intro _ h; cases h
  | cons x xs ih =>
    intro hnd hmem b
    rw [List.foldl_cons]
    rcases List.mem_cons.mp hmem with rfl | hmem'
    · have hnotin : e ∉ xs := (List.nodup_cons.mp hnd).1
      rw [foldl_key_not_mem f e K hne xs hnotin, hself]
    · have hx : x ≠ e := by
        rintro rfl
        exact (List.nodup_cons.mp hnd).1 hmem'
      rw [ih (List.nodup_cons.mp hnd).2 hmem' (f b x), hne b x hx]

/-- A fold whose every step preserves the observation `K` preserves it
overall. -/
theorem foldl_fix {β κ α : Type} (f : β → α → β) (K : β → κ) :
    ∀ (l : List α), (∀ b x, x ∈ l → K (f b x) = K b) → ∀ b, K (l.foldl f b) = K b := by
  intro l
  induction l with
  | nil => intro _ b; rfl
  | cons x xs ih =>
    intro h b
    rw [List.foldl_cons, ih (fun b' x' hx' => h b' x' (List.mem_cons_of_mem _ hx')),
      h b x (List.mem_cons_self _ _)]

/-- Folding a list with a step that ignores its element is the identity. -/
theorem foldl_const {β α : Type} (l : List α) (b : β) :
    l.foldl (fun acc _ => acc) b = b := by
  induction l generalizing b with
  | nil => rfl
  | cons x xs ih => rw [List.foldl_cons]; exact ih b

/-- If every step overwrites the `selected` store with the singleton of
its element, a fold over a nonempty list leaves the singleton of the
last element. -/
theorem foldl_selected_last (f : Registry → Entity → Registry)
    (hf : ∀ b x, (f b x).selected = fun y => if y = x then true else false) :
    ∀ (l : List Entity) (hl : l ≠ []) (b : Registry),
      (l.foldl f b).selected = fun y => if y = l.getLast hl then true else false := by
  intro l
  induction l with
  | nil => intro h; exact absurd rfl h
  | cons x xs ih =>
    cases xs with
    | nil =>
      intro hl b
      rw [List.foldl_cons]
      simpa [List.getLast] using hf b x
    | cons y ys =>
      intro hl b
      have hxs' : y :: ys ≠ [] := by simp
      rw [List.foldl_cons, ih hxs' (f b x), List.getLast_cons hxs']

/-! ### Facts about the modelled Sequentity channel map -/

/-- Appending a binding for an absent key makes it found. -/
theorem chanLookup_append_self (cs : List (EventType × Sequentity.Channel)) (ty : EventType)
    (c : Sequentity.Channel) (h : chanLookup cs ty = none) :
    chanLookup (cs ++ [(ty, c)]) ty = some c := by
  induction cs with
  | nil => simp [chanLookup]
  | cons p rest ih =>
    rw [List.cons_append]
    rw [chanLookup] at h ⊢
    by_cases hk : p.1 = ty
    · simp [hk] at h
    · simp only [hk, if_false] at h ⊢
      exact ih h

/-- Looking up the key just modified yields the modified channel. -/
theorem chanLookup_modify (cs : List (EventType × Sequentity.Channel)) (ty : EventType)
    (f : Sequentity.Channel → Sequentity.Channel) :
    chanLookup (chanModify cs ty f) ty = (chanLookup cs ty).map f := by
  induction cs with
  | nil => simp [chanLookup, chanModify]
  | cons p rest ih =>
    rcases p with ⟨k, c⟩
    by_cases hk : k = ty
    · simp [chanLookup, chanModify, hk]
    · simp [chanLookup, chanModify, hk, ih]

/-- Ensuring a present key changes nothing. -/
theorem chanEnsure_isSome (cs : List (EventType × Sequentity.Channel)) (ty : EventType)
    (h : (chanLookup cs ty).isSome = true) : chanEnsure cs ty = cs := by
  simp [chanEnsure, h]

/-- Ensuring an absent key appends a default-constructed channel. -/
theorem chanEnsure_isNone (cs : List (EventType × Sequentity.Channel)) (ty : EventType)
    (h : chanLookup cs ty = none) : chanEnsure cs ty = cs ++ [(ty, default)] := by
  simp [chanEnsure, h]

/-- Mutating the back of a list given as `prefix ++ [last]`. -/
theorem modifyLast_concat {α : Type} (f : α → α) (es : List α) (a : α) :
    modifyLast f (es ++ [a]) = es ++ [f a] := by
  induction es with
  | nil => simp [modifyLast]
  | cons x xs ih =>
    cases xs with
    | nil => simp [modifyLast]
    | cons y ys =>
      rw [List.cons_append]
      rw [List.cons_append] at ih ⊢
      rw [modifyLast, ih]
      simp

/-- A default-constructed channel has no events. -/
theorem default_channel_events : (default : Sequentity.Channel).events = [] := rfl

/-! ### What one press body does to the pressed entity's channel -/

/-- A transform press body appends exactly one event — starting at
`state.time + 1`, of length 1, in the entity's colour, carrying the
fresh payload — to the tool's channel of the entity's track, whether or
not the track or the channel existed before. -/
theorem pressCore_channelEvents (ty : EventType) (clabel : String) (ccolor : Colr)
    (data0 : EventData) (name : Name) (state : Activated) (color : Colr)
    (t0 : Option Sequentity.Track) :
    channelEvents (some (pressCore ty clabel ccolor data0 name state color t0)) ty
      = channelEvents t0 ty
        ++ [{ time := state.time + 1, length := 1, color := color, type := ty,
              data := data0 }] := by
  cases t0 with
  | none =>
    simp [pressCore, channelEvents, chanEnsure, chanLookup, chanModify, Sequentity.PushEvent,
      default_channel_events]
  | some tr =>
    cases h : chanLookup tr.channels ty with
    | none =>
      simp [pressCore, channelEvents, h, chanEnsure_isNone _ _ h, chanLookup_modify,
        chanLookup_append_self _ _ _ h, Sequentity.PushEvent, default_channel_events]
    | some c =>
      have he : chanEnsure tr.channels ty = tr.channels := chanEnsure_isSome _ _ (by rw [h]; rfl)
      simp [pressCore, channelEvents, h, he, chanLookup_modify, Sequentity.PushEvent]

/-- A hold body maps the last event of the tool's channel through the
index/store/length update and touches no other event. -/
theorem holdCore_channelEvents (ty : EventType)
    (store : EventData → Nat → InputPosition2D → EventData) (state : Active)
    (input : InputPosition2D) (t : Sequentity.Track) (c : Sequentity.Channel)
    (h : chanLookup t.channels ty = some c) :
    channelEvents (some (holdCore ty store state input t)) ty
      = modifyLast (fun ev =>
          { ev with data := store ev.data (asSizeT (state.time - ev.time + 1)) input,
                    length := (state.time - ev.time + 1) + 1 }) c.events := by
  simp [holdCore, channelEvents, chanLookup_modify, h]

/-! ### Press steps and folds, observed at one entity -/

/-- A press iteration for another entity does not change the components
a press body reads for `e`. -/
theorem translatePress1_key_ne (rec : Bool) (e x : Entity) (hx : x ≠ e) (b : Registry) :
    pressKey e (translatePress1 rec b x) = pressKey e b := by
  cases rec <;>
    simp [translatePress1, pressKey, setTrack, assignSelected, resetSelected, Ne.symm hx]

/-- The press iteration for `e` itself (recording) writes the press-core
track for `e` and reads only `pressKey`. -/
theorem translatePress1_key_self (b : Registry) (e : Entity) :
    pressKey e (translatePress1 true b e)
      = (b.name e, b.activated e, b.color e,
         some (translatePressCore ((b.name e).getD default) ((b.activated e).getD default)
           ((b.color e).getD default) (b.track e))) := by
  simp [translatePress1, pressKey, setTrack, assignSelected, resetSelected]

/-- Analogue of `translatePress1_key_ne` for the rotate/scale shape. -/
theorem transformPress1_key_ne
    (core : Name → Activated → Colr → Option Sequentity.Track → Sequentity.Track)
    (e x : Entity) (hx : x ≠ e) (b : Registry) :
    pressKey e (transformPress1 core b x) = pressKey e b := by
  simp [transformPress1, pressKey, setTrack, assignSelected, resetSelected, Ne.symm hx]

/-- Analogue of `translatePress1_key_self` for the rotate/scale shape. -/
theorem transformPress1_key_self
    (core : Name → Activated → Colr → Option Sequentity.Track → Sequentity.Track)
    (b : Registry) (e : Entity) :
    pressKey e (transformPress1 core b e)
      = (b.name e, b.activated e, b.color e,
         some (core ((b.name e).getD default) ((b.activated e).getD default)
           ((b.color e).getD default) (b.track e))) := by
  simp [transformPress1, pressKey, setTrack, assignSelected, resetSelected]

/-- Folding the recording translate press step over a duplicate-free
list containing `e` installs exactly the press-core track for `e`. -/
theorem translatePressFold_track (l : List Entity) (hnd : l.Nodup) (e : Entity)
    (he : e ∈ l) (r : Registry) :
    (l.foldl (translatePress1 true) r).track e
      = some (translatePressCore ((r.name e).getD default) ((r.activated e).getD default)
          ((r.color e).getD default) (r.track e)) := by
  have h := foldl_key_mem (translatePress1 true) e (pressKey e)
    (fun k => (k.1, k.2.1, k.2.2.1,
      some (translatePressCore (k.1.getD default) (k.2.1.getD default)
        (k.2.2.1.getD default) k.2.2.2)))
    (fun b x hx => translatePress1_key_ne true e x hx b)
    (fun b => translatePress1_key_self b e) l hnd he r
  exact congrArg (fun k => k.2.2.2) h

/-- Folding a rotate/scale press step over a duplicate-free list
containing `e` installs exactly the corresponding core track for `e`. -/
theorem transformPressFold_track
    (core : Name → Activated → Colr → Option Sequentity.Track → Sequentity.Track)
    (l : List Entity) (hnd : l.Nodup) (e : Entity) (he : e ∈ l) (r : Registry) :
    (l.foldl (transformPress1 core) r).track e
      = some (core ((r.name e).getD default) ((r.activated e).getD default)
          ((r.color e).getD default) (r.track e)) := by
  have h := foldl_key_mem (transformPress1 core) e (pressKey e)
    (fun k => (k.1, k.2.1, k.2.2.1,
      some (core (k.1.getD default) (k.2.1.getD default) (k.2.2.1.getD default) k.2.2.2)))
    (fun b x hx => transformPress1_key_ne core e x hx b)
    (fun b => transformPress1_key_self core b e) l hnd he r
  exact congrArg (fun k => k.2.2.2) h

/-! ### Hold steps and folds, observed at one entity -/

/-- A recording hold iteration for another entity does not change the
components a hold body reads for `e`. -/
theorem transformHold1_key_ne (ty : EventType)
    (store : EventData → Nat → InputPosition2D → EventData) (e x : Entity) (hx : x ≠ e)
    (b : Registry) : holdKey e (transformHold1 ty store b x) = holdKey e b := by
  by_cases h : (chanLookup ((b.track x).getD default).channels ty).isSome = true <;>
    simp [transformHold1, holdKey, setTrack, h, Ne.symm hx]

/-- The recording hold iteration for `e` itself rewrites `e`'s track
through `holdTrackF` and reads only `holdKey`. -/
theorem transformHold1_key_self (ty : EventType)
    (store : EventData → Nat → InputPosition2D → EventData) (b : Registry) (e : Entity) :
    holdKey e (transformHold1 ty store b e)
      = (b.active e, b.input e, holdTrackF ty store (holdKey e b)) := by
  by_cases h : (chanLookup ((b.track e).getD default).channels ty).isSome = true <;>
    simp [transformHold1, holdKey, holdTrackF, setTrack, h]

/-- Folding a recording hold step over a duplicate-free list containing
`e` rewrites `e`'s track exactly through `holdTrackF`. -/
theorem transformHoldFold_track (ty : EventType)
    (store : EventData → Nat → InputPosition2D → EventData) (l : List Entity)
    (hnd : l.Nodup) (e : Entity) (he : e ∈ l) (r : Registry) :
    (l.foldl (transformHold1 ty store) r).track e = holdTrackF ty store (holdKey e r) := by
  have h := foldl_key_mem (transformHold1 ty store) e (holdKey e)
    (fun k => (k.1, k.2.1, holdTrackF ty store k))
    (fun b x hx => transformHold1_key_ne ty store e x hx b)
    (fun b => transformHold1_key_self ty store b e) l hnd he r
  exact congrArg (fun k => k.2.2) h

/-- Combined form: if `e`'s channel of the tool's type holds the events
`es ++ [ev]`, a recording hold fold leaves `es` untouched and maps `ev`
through the index/store/length update. -/
theorem holdFold_channelEvents (ty : EventType)
    (store : EventData → Nat → InputPosition2D → EventData) (l : List Entity)
    (hnd : l.Nodup) (e : Entity) (he : e ∈ l) (r : Registry)
    (es : List Sequentity.Event) (ev : Sequentity.Event)
    (hch : channelEvents (r.track e) ty = es ++ [ev]) :
    channelEvents ((l.foldl (transformHold1 ty store) r).track e) ty
      = es ++ [{ ev with
          data := store ev.data
            (asSizeT (((r.active e).getD default).time - ev.time + 1))
            ((r.input e).getD default),
          length := (((r.active e).getD default).time - ev.time + 1) + 1 }] := by
  rcases hr : r.track e with _ | tr
  · rw [hr] at hch
    simp [channelEvents] at hch
  · rcases hc : chanLookup tr.channels ty with _ | c
    · rw [hr] at hch
      simp [channelEvents, hc] at hch
    · rw [hr] at hch
      simp only [channelEvents, hc] at hch
      rw [transformHoldFold_track ty store l hnd e he r]
      simp only [holdTrackF, holdKey, hr, Option.getD_some, hc, Option.isSome_some, if_true]
      rw [holdCore_channelEvents ty store _ _ tr c hc, hch, modifyLast_concat]

/-! ### Selection -/

/-- Every press iteration of `SelectTool` leaves exactly its entity
selected. -/
theorem selectPress1_selected (r : Registry) (e : Entity) :
    (selectPress1 r e).selected = fun y => if y = e then true else false := rfl

/-- Every press iteration of `TranslateTool` leaves exactly its entity
selected (the selection statements precede the `record` guard). -/
theorem translatePress1_selected (rec : Bool) (r : Registry) (e : Entity) :
    (translatePress1 rec r e).selected = fun y => if y = e then true else false := by
  cases rec <;> rfl

/-- Every press iteration of `RotateTool`/`ScaleTool` leaves exactly
its entity selected (the selection statements close the lambda). -/
theorem transformPress1_selected
    (core : Name → Activated → Colr → Option Sequentity.Track → Sequentity.Track)
    (r : Registry) (e : Entity) :
    (transformPress1 core r e).selected = fun y => if y = e then true else false := rfl

/-- Recording hold iterations do not touch `Selected`. -/
theorem transformHold1_selected (ty : EventType)
    (store : EventData → Nat → InputPosition2D → EventData) (b : Registry) (x : Entity) :
    (transformHold1 ty store b x).selected = b.selected := by
  by_cases h : (chanLookup ((b.track x).getD default).channels ty).isSome = true <;>
    simp [transformHold1, setTrack, h]

/-- No `TranslateTool` hold iteration touches `Selected`. -/
theorem translateHold1_selected (rec : Bool) (b : Registry) (x : Entity) :
    (translateHold1 rec b x).selected = b.selected := by
  cases rec with
  | false => rfl
  | true => exact transformHold1_selected .TranslateEvent translateStore b x

/-- The release query of every tool has an empty body, so the branch is
the identity on the registry. -/
theorem releaseBranch_eq (r : Registry) : releaseBranch r = r :=
  foldl_const _ _

/-- After `SelectTool`, exactly the last entity of its (nonempty) press
view is selected. -/
theorem SelectTool_selected (rec : Bool) (r : Registry) (p : Int)
    (h : viewSelectPress r ≠ []) :
    (SelectTool rec r p).1.selected
      = fun y => if y = (viewSelectPress r).getLast h then true else false :=
  foldl_selected_last selectPress1 selectPress1_selected _ h r

/-- After `TranslateTool`, exactly the last entity of its (nonempty)
press view is selected. -/
theorem TranslateTool_selected (rec : Bool) (r : Registry) (p : Int)
    (h : viewTranslatePress r ≠ []) :
    (TranslateTool rec r p).1.selected
      = fun y => if y = (viewTranslatePress r).getLast h then true else false := by
  show (releaseBranch (translateHoldBranch rec (translatePressBranch rec r))).selected = _
  rw [releaseBranch_eq]
  unfold translateHoldBranch
  rw [foldl_fix (translateHold1 rec) Registry.selected _
      (fun b x _ => translateHold1_selected rec b x) _]
  unfold translatePressBranch
  exact foldl_selected_last (translatePress1 rec) (translatePress1_selected rec) _ h r

/-- After `RotateTool`, exactly the last entity of its (nonempty) press
view is selected. -/
theorem RotateTool_selected (rec : Bool) (r : Registry) (p : Int)
    (h : viewRotatePress r ≠ []) :
    (RotateTool rec r p).1.selected
      = fun y => if y = (viewRotatePress r).getLast h then true else false := by
  show (releaseBranch (rotateHoldBranch (rotatePressBranch r))).selected = _
  rw [releaseBranch_eq]
  unfold rotateHoldBranch
  rw [foldl_fix rotateHold1 Registry.selected _
      (fun b x _ => transformHold1_selected .RotateEvent rotateStore b x) _]
  unfold rotatePressBranch
  exact foldl_selected_last rotatePress1
    (transformPress1_selected rotatePressCore) _ h r

/-- After `ScaleTool`, exactly the last entity of its (nonempty) press
view is selected. -/
theorem ScaleTool_selected (rec : Bool) (r : Registry) (p : Int)
    (h : viewScalePress r ≠ []) :
    (ScaleTool rec r p).1.selected
      = fun y => if y = (viewScalePress r).getLast h then true else false := by
  show (releaseBranch (scaleHoldBranch (scalePressBranch r))).selected = _
  rw [releaseBranch_eq]
  unfold scaleHoldBranch
  rw [foldl_fix scaleHold1 Registry.selected _
      (fun b x _ => transformHold1_selected .ScaleEvent scaleStore b x) _]
  unfold scalePressBranch
  exact foldl_selected_last scalePress1
    (transformPress1_selected scalePressCore) _ h r

/-! ### Hold iterations leave other entities alone -/

/-- A recording hold iteration for another entity leaves `e`'s track
and `MoveIntent` stores unchanged. -/
theorem transformHold1_tm_ne (ty : EventType)
    (store : EventData → Nat → InputPosition2D → EventData) (e x : Entity) (hx : x ≠ e)
    (b : Registry) :
    ((transformHold1 ty store b x).track e, (transformHold1 ty store b x).moveIntent e)
      = (b.track e, b.moveIntent e) := by
  by_cases h : (chanLookup ((b.track x).getD default).channels ty).isSome = true <;>
    simp [transformHold1, setTrack, h, Ne.symm hx]

/-- A `TranslateTool` hold iteration for another entity leaves `e`'s
track and `MoveIntent` stores unchanged, in either recording mode. -/
theorem translateHold1_tm_ne (rec : Bool) (e x : Entity) (hx : x ≠ e) (b : Registry) :
    ((translateHold1 rec b x).track e, (translateHold1 rec b x).moveIntent e)
      = (b.track e, b.moveIntent e) := by
  cases rec with
  | false => simp [translateHold1, assignMoveIntent, Ne.symm hx]
  | true => exact transformHold1_tm_ne .TranslateEvent translateStore e x hx b

/-! ### No tool body mutates live transform state -/

/-- Rotate/scale press iterations only touch tracks and selection. -/
theorem transformPress1_liveKey
    (core : Name → Activated → Colr → Option Sequentity.Track → Sequentity.Track)
    (b : Registry) (y x : Entity) :
    liveKey x (transformPress1 core b y) = liveKey x b := rfl

/-- Translate press iterations only touch tracks and selection. -/
theorem translatePress1_liveKey (rec : Bool) (b : Registry) (y x : Entity) :
    liveKey x (translatePress1 rec b y) = liveKey x b := by
  cases rec <;> rfl

/-- Recording hold iterations only touch tracks. -/
theorem transformHold1_liveKey (ty : EventType)
    (store : EventData → Nat → InputPosition2D → EventData) (b : Registry) (y x : Entity) :
    liveKey x (transformHold1 ty store b y) = liveKey x b := by
  by_cases h : (chanLookup ((b.track y).getD default).channels ty).isSome = true <;>
    simp [transformHold1, setTrack, liveKey, h]

/-- `RotateTool` never writes `Orientation`, `Size`, `Position` or
`MoveIntent`. -/
theorem RotateTool_liveKey (rec : Bool) (r : Registry) (p : Int) (x : Entity) :
    liveKey x (RotateTool rec r p).1 = liveKey x r := by
  show liveKey x (releaseBranch (rotateHoldBranch (rotatePressBranch r))) = liveKey x r
  rw [releaseBranch_eq]
  unfold rotateHoldBranch
  rw [foldl_fix rotateHold1 (liveKey x) _
    (fun b y _ => transformHold1_liveKey .RotateEvent rotateStore b y x) _]
  unfold rotatePressBranch
  rw [foldl_fix rotatePress1 (liveKey x) _
    (fun b y _ => transformPress1_liveKey rotatePressCore b y x) _]

/-- `ScaleTool` never writes `Orientation`, `Size`, `Position` or
`MoveIntent`. -/
theorem ScaleTool_liveKey (rec : Bool) (r : Registry) (p : Int) (x : Entity) :
    liveKey x (ScaleTool rec r p).1 = liveKey x r := by
  show liveKey x (releaseBranch (scaleHoldBranch (scalePressBranch r))) = liveKey x r
  rw [releaseBranch_eq]
  unfold scaleHoldBranch
  rw [foldl_fix scaleHold1 (liveKey x) _
    (fun b y _ => transformHold1_liveKey .ScaleEvent scaleStore b y x) _]
  unfold scalePressBranch
  rw [foldl_fix scalePress1 (liveKey x) _
    (fun b y _ => transformPress1_liveKey scalePressCore b y x) _]

/-- The recording `TranslateTool` never writes `Orientation`, `Size`,
`Position` or `MoveIntent`. -/
theorem TranslateTool_liveKey (r : Registry) (p : Int) (x : Entity) :
    liveKey x (TranslateTool true r p).1 = liveKey x r := by
  show liveKey x (releaseBranch (translateHoldBranch true (translatePressBranch true r)))
    = liveKey x r
  rw [releaseBranch_eq]
  unfold translateHoldBranch
  rw [foldl_fix (translateHold1 true) (liveKey x) _
    (fun b y _ => transformHold1_liveKey .TranslateEvent translateStore b y x) _]
  unfold translatePressBranch
  rw [foldl_fix (translatePress1 true) (liveKey x) _
    (fun b y _ => translatePress1_liveKey true b y x) _]

/-- A press-core track created from scratch carries the entity's name
text and colour. -/
theorem pressCore_label_none (ty : EventType) (clabel : String) (ccolor : Colr)
    (data0 : EventData) (name : Name) (state : Activated) (color : Colr) :
    (pressCore ty clabel ccolor data0 name state color none).label = name.text
    ∧ (pressCore ty clabel ccolor data0 name state color none).color = color := by
  constructor <;> rfl

/-- `SelectTool` never touches tracks. -/
theorem SelectTool_track (rec : Bool) (r : Registry) (p : Int) (x : Entity) :
    (SelectTool rec r p).1.track x = r.track x := by
  show ((viewSelectPress r).foldl selectPress1 r).track x = r.track x
  exact foldl_fix selectPress1 (fun b => b.track x) _ (fun b y _ => rfl) r

/-- `ScrubTool` never touches tracks. -/
theorem ScrubTool_track (rec : Bool) (r : Registry) (p : Int) (x : Entity) :
    (ScrubTool rec r p).1.track x = r.track x := by
  show (releaseBranch _).track x = r.track x
  rw [releaseBranch_eq]
  exact foldl_fix (fun acc e =>
      let input := (acc.input e).getD default
      setCurrentTime acc
        ((viewScrubPress r).foldl (fun _ _ => r.seqState.current_time) p
          + Int.tdiv input.relative.x 10))
    (fun b => b.track x) (viewScrubHold r) (fun b y _ => rfl) r

/-- The translate press core is the generic one at its constants. -/
theorem translatePressCore_eq :
    translatePressCore
      = pressCore .TranslateEvent "Translate" (.hsv 0 75 75)
          (.translateData default [default]) := rfl

/-- The rotate press core is the generic one at its constants. -/
theorem rotatePressCore_eq :
    rotatePressCore = pressCore .RotateEvent "Rotate" (.hsv 33 75 75) (.rotateData [0]) := rfl

/-- The scale press core is the generic one at its constants. -/
theorem scalePressCore_eq :
    scalePressCore = pressCore .ScaleEvent "Scale" (.hsv 52 75 50) (.scaleData [0]) := rfl

/-- The recording translate hold step is the generic transform hold
step at the translate constants. -/
theorem translateHold1_true_eq :
    translateHold1 true = transformHold1 .TranslateEvent translateStore := rfl

/-! ### The claims -/

/-- C3: in the hold branch of `TranslateTool` (recording), `RotateTool`
and `ScaleTool`, when the entity's track lacks the tool's channel the
iteration only logs a warning and returns: the whole registry — track,
channels, events, payloads — is left exactly as it was, and no channel
or event is created on this error path. -/
theorem C3_missing_channel_warn_only (r : Registry) (e : Entity) :
    (chanLookup ((r.track e).getD default).channels .TranslateEvent = none →
      translateHold1 true r e = r)
    ∧ (chanLookup ((r.track e).getD default).channels .RotateEvent = none →
      rotateHold1 r e = r)
    ∧ (chanLookup ((r.track e).getD default).channels .ScaleEvent = none →
      scaleHold1 r e = r) := by
  refine ⟨?_, ?_, ?_⟩ <;> intro h <;>
    simp [translateHold1, rotateHold1, scaleHold1, transformHold1, h]

/-- Witness for C3 at a concrete registry: entity 1 of `wAll` owns a
track with no channels, and every hold iteration leaves the registry
untouched on it. -/
theorem C3_missing_channel_warn_only_witness :
    chanLookup ((wAll.track 1).getD default).channels .TranslateEvent = none
    ∧ translateHold1 true wAll 1 = wAll
    ∧ rotateHold1 wAll 1 = wAll
    ∧ scaleHold1 wAll 1 = wAll :=
  ⟨by decide, (C3_missing_channel_warn_only wAll 1).1 (by decide),
    (C3_missing_channel_warn_only wAll 1).2.1 (by decide),
    (C3_missing_channel_warn_only wAll 1).2.2 (by decide)⟩

/-- C4 (amended): `TranslateTool`, `RotateTool`, `ScaleTool` and
`ScrubTool` are three-branch dispatches — one query over `Activated`
entities, then one over `Active` entities, then one over `Deactivated`
entities, in that order and with no other branches — but `SelectTool`
runs only the single press query over `Activated` entities and has no
hold or release branch. -/
theorem C4_three_branch_dispatch_amended :
    toolPhases .Translate = [.press, .hold, .release]
    ∧ toolPhases .Rotate = [.press, .hold, .release]
    ∧ toolPhases .Scale = [.press, .hold, .release]
    ∧ toolPhases .Scrub = [.press, .hold, .release]
    ∧ toolPhases .Select = [.press]
    ∧ (∀ rec r p, TranslateTool rec r p
        = (releaseBranch (translateHoldBranch rec (translatePressBranch rec r)), p))
    ∧ (∀ rec r p, RotateTool rec r p
        = (releaseBranch (rotateHoldBranch (rotatePressBranch r)), p))
    ∧ (∀ rec r p, ScaleTool rec r p
        = (releaseBranch (scaleHoldBranch (scalePressBranch r)), p))
    ∧ (∀ rec r p, SelectTool rec r p = ((viewSelectPress r).foldl selectPress1 r, p)) :=
  ⟨rfl, rfl, rfl, rfl, rfl, fun _ _ _ => rfl, fun _ _ _ => rfl, fun _ _ _ => rfl,
    fun _ _ _ => rfl⟩

/-- Counterexample for C4 as stated: `SelectTool` is not a three-branch
dispatch — it consists of the press query alone. -/
theorem C4_select_not_three_branch_cex :
    toolPhases .Select ≠ [.press, .hold, .release] := by
  decide

/-- C6 (amended): the only live-state mutation any tool performs is
`TranslateTool`'s hold branch assigning a `MoveIntent` from
`input.delta` — and it does so only when `record` is false.  When
recording, `TranslateTool` leaves orientation, size, position and
`MoveIntent` unchanged, and `RotateTool` and `ScaleTool` never mutate
any of them in any mode: their hold branches only write event payloads. -/
theorem C6_live_feedback_amended :
    (∀ r e, (translateHold1 false r e).moveIntent e
      = some { x := ((r.input e).getD default).delta.x
               y := ((r.input e).getD default).delta.y })
    ∧ (∀ rec r p x, liveKey x (RotateTool rec r p).1 = liveKey x r)
    ∧ (∀ rec r p x, liveKey x (ScaleTool rec r p).1 = liveKey x r)
    ∧ (∀ r p x, liveKey x (TranslateTool true r p).1 = liveKey x r) := by
  refine ⟨?_, ?_, ?_, ?_⟩
  · intro r e
    simp [translateHold1, assignMoveIntent]
  · exact RotateTool_liveKey
  · exact ScaleTool_liveKey
  · exact TranslateTool_liveKey

/-- Counterexample for C6 as stated: entity 0 of `wAll` is `Active`
with a rotate channel on its track, yet running `RotateTool` leaves its
`Orientation` component exactly as it was — the tool does not mutate
the live orientation. -/
theorem C6_rotate_orientation_unchanged_cex :
    (wAll.active 0).isSome = true
    ∧ wAll.orientation 0 = some 0
    ∧ (RotateTool true wAll 0).1.orientation 0 = some 0 := by
  refine ⟨by decide, by decide, ?_⟩
  have h : (RotateTool true wAll 0).1.orientation 0 = wAll.orientation 0 :=
    congrArg (fun k => k.1) (RotateTool_liveKey true wAll 0 0)
  rw [h]
  decide

/-- C7 (amended): `SelectTool`, `TranslateTool`, `RotateTool` and
`ScaleTool` are determined solely by the registry state and the
`record` flag — their result neither reads nor changes the scrub
static — but `ScrubTool` also depends on its function-local
`static int previous_time`, so the claim's determinism fails for it. -/
theorem C7_registry_determined_amended :
    (∀ rec r p q, (SelectTool rec r p).1 = (SelectTool rec r q).1
      ∧ (SelectTool rec r p).2 = p)
    ∧ (∀ rec r p q, (TranslateTool rec r p).1 = (TranslateTool rec r q).1
      ∧ (TranslateTool rec r p).2 = p)
    ∧ (∀ rec r p q, (RotateTool rec r p).1 = (RotateTool rec r q).1
      ∧ (RotateTool rec r p).2 = p)
    ∧ (∀ rec r p q, (ScaleTool rec r p).1 = (ScaleTool rec r q).1
      ∧ (ScaleTool rec r p).2 = p) :=
  ⟨fun _ _ _ _ => ⟨rfl, rfl⟩, fun _ _ _ _ => ⟨rfl, rfl⟩,
    fun _ _ _ _ => ⟨rfl, rfl⟩, fun _ _ _ _ => ⟨rfl, rfl⟩⟩

/-- Counterexample for C7 as stated: two `ScrubTool` invocations from
the identical registry `w7` (one `Active` entity, no `Activated` one)
and identical inputs write different `current_time` values depending on
the function-local static `previous_time`. -/
theorem C7_scrub_static_cex :
    (ScrubTool true w7 0).1.seqState.current_time = 0
    ∧ (ScrubTool true w7 7).1.seqState.current_time = 7
    ∧ (ScrubTool true w7 0).1.seqState.current_time
        ≠ (ScrubTool true w7 7).1.seqState.current_time := by
  refine ⟨by decide, by decide, by decide⟩

/-- C9: an entity carrying both `Active` and `Abort` is excluded from
the hold query of `TranslateTool`, `RotateTool` and `ScaleTool`, so
those branches leave its track (channels, events, payload data) and its
`MoveIntent` completely unchanged. -/
theorem C9_abort_halts_recording (rec : Bool) (r : Registry) (e : Entity)
    (h : r.abort e = true) :
    ((translateHoldBranch rec r).track e = r.track e
      ∧ (translateHoldBranch rec r).moveIntent e = r.moveIntent e)
    ∧ ((rotateHoldBranch r).track e = r.track e
      ∧ (rotateHoldBranch r).moveIntent e = r.moveIntent e)
    ∧ ((scaleHoldBranch r).track e = r.track e
      ∧ (scaleHoldBranch r).moveIntent e = r.moveIntent e) := by
  have hmemT : ∀ x ∈ viewTranslateHold r, x ≠ e := by
    intro x hx
    rcases List.mem_filter.mp hx with ⟨-, hp⟩
    rintro rfl
    simp [h] at hp
  have hmemR : ∀ x ∈ viewRotateHold r, x ≠ e := by
    intro x hx
    rcases List.mem_filter.mp hx with ⟨-, hp⟩
    rintro rfl
    simp [h] at hp
  refine ⟨?_, ?_, ?_⟩
  · have hfix := foldl_fix (translateHold1 rec) (fun b => (b.track e, b.moveIntent e))
      (viewTranslateHold r) (fun b x hx => translateHold1_tm_ne rec e x (hmemT x hx) b) r
    exact ⟨congrArg Prod.fst hfix, congrArg Prod.snd hfix⟩
  · have hfix := foldl_fix rotateHold1 (fun b => (b.track e, b.moveIntent e))
      (viewRotateHold r)
      (fun b x hx => transformHold1_tm_ne .RotateEvent rotateStore e x (hmemR x hx) b) r
    exact ⟨congrArg Prod.fst hfix, congrArg Prod.snd hfix⟩
  · have hfix := foldl_fix scaleHold1 (fun b => (b.track e, b.moveIntent e))
      (viewScaleHold r)
      (fun b x hx => transformHold1_tm_ne .ScaleEvent scaleStore e x (hmemR x hx) b) r
    exact ⟨congrArg Prod.fst hfix, congrArg Prod.snd hfix⟩

/-- Witness for C9 at a concrete registry: entity 1 of `wAll` is
`Active` but carries `Abort`, and every hold branch leaves its track
and `MoveIntent` as they were. -/
theorem C9_abort_halts_recording_witness :
    wAll.abort 1 = true
    ∧ (wAll.active 1).isSome = true
    ∧ (translateHoldBranch true wAll).track 1 = wAll.track 1
    ∧ (rotateHoldBranch wAll).moveIntent 1 = wAll.moveIntent 1
    ∧ (scaleHoldBranch wAll).track 1 = wAll.track 1 :=
  ⟨by decide, by decide,
    (C9_abort_halts_recording true wAll 1 (by decide)).1.1,
    (C9_abort_halts_recording true wAll 1 (by decide)).2.1.2,
    (C9_abort_halts_recording true wAll 1 (by decide)).2.2.1⟩

/-- C1: with recording on, the press branch of `TranslateTool` pushes
exactly one fresh event of the tool's event type, with initial length
1, onto the pressed entity's track channel; `RotateTool` and
`ScaleTool` do the same on press (regardless of `record`); on every
hold frame of an entity that is `Active` and not `Abort`, the hold
branch rewrites the channel's last event in place — no event is
created — extending its length so the event covers the current time;
and the release branch over `Deactivated` entities creates and extends
nothing, being the identity on the registry. -/
theorem C1_press_pushes_hold_extends (r : Registry) (e : Entity) (hnd : r.order.Nodup) :
    (e ∈ viewTranslatePress r →
      channelEvents ((translatePressBranch true r).track e) .TranslateEvent
        = channelEvents (r.track e) .TranslateEvent
          ++ [{ time := ((r.activated e).getD default).time + 1, length := 1,
                color := (r.color e).getD default, type := .TranslateEvent,
                data := .translateData default [default] }])
    ∧ (e ∈ viewRotatePress r →
      channelEvents ((rotatePressBranch r).track e) .RotateEvent
        = channelEvents (r.track e) .RotateEvent
          ++ [{ time := ((r.activated e).getD default).time + 1, length := 1,
                color := (r.color e).getD default, type := .RotateEvent,
                data := .rotateData [0] }])
    ∧ (e ∈ viewScalePress r →
      channelEvents ((scalePressBranch r).track e) .ScaleEvent
        = channelEvents (r.track e) .ScaleEvent
          ++ [{ time := ((r.activated e).getD default).time + 1, length := 1,
                color := (r.color e).getD default, type := .ScaleEvent,
                data := .scaleData [0] }])
    ∧ (∀ es ev, e ∈ viewTranslateHold r →
        channelEvents (r.track e) .TranslateEvent = es ++ [ev] →
        ∃ ev', channelEvents ((translateHoldBranch true r).track e) .TranslateEvent
            = es ++ [ev']
          ∧ ev'.time = ev.time
          ∧ ev'.length = ((r.active e).getD default).time - ev.time + 2
          ∧ (ev.time ≤ ((r.active e).getD default).time →
              ev'.time ≤ ((r.active e).getD default).time
                ∧ ((r.active e).getD default).time < ev'.time + ev'.length))
    ∧ (∀ es ev, e ∈ viewRotateHold r →
        channelEvents (r.track e) .RotateEvent = es ++ [ev] →
        ∃ ev', channelEvents ((rotateHoldBranch r).track e) .RotateEvent = es ++ [ev']
          ∧ ev'.time = ev.time
          ∧ ev'.length = ((r.active e).getD default).time - ev.time + 2
          ∧ (ev.time ≤ ((r.active e).getD default).time →
              ev'.time ≤ ((r.active e).getD default).time
                ∧ ((r.active e).getD default).time < ev'.time + ev'.length))
    ∧ (∀ es ev, e ∈ viewScaleHold r →
        channelEvents (r.track e) .ScaleEvent = es ++ [ev] →
        ∃ ev', channelEvents ((scaleHoldBranch r).track e) .ScaleEvent = es ++ [ev']
          ∧ ev'.time = ev.time
          ∧ ev'.length = ((r.active e).getD default).time - ev.time + 2
          ∧ (ev.time ≤ ((r.active e).getD default).time →
              ev'.time ≤ ((r.active e).getD default).time
                ∧ ((r.active e).getD default).time < ev'.time + ev'.length))
    ∧ (∀ s, releaseBranch s = s) := by
  refine ⟨?_, ?_, ?_, ?_, ?_, ?_, releaseBranch_eq⟩
  · intro he
    unfold translatePressBranch
    rw [translatePressFold_track (viewTranslatePress r) (hnd.filter _) e he r,
      translatePressCore_eq]
    exact pressCore_channelEvents _ _ _ _ _ _ _ _
  · intro he
    unfold rotatePressBranch rotatePress1
    rw [transformPressFold_track rotatePressCore (viewRotatePress r) (hnd.filter _) e he r,
      rotatePressCore_eq]
    exact pressCore_channelEvents _ _ _ _ _ _ _ _
  · intro he
    unfold scalePressBranch scalePress1
    rw [transformPressFold_track scalePressCore (viewScalePress r) (hnd.filter _) e he r,
      scalePressCore_eq]
    exact pressCore_channelEvents _ _ _ _ _ _ _ _
  · intro es ev he hch
    refine ⟨{ ev with
        data := translateStore ev.data
          (asSizeT (((r.active e).getD default).time - ev.time + 1))
          ((r.input e).getD default)
        length := (((r.active e).getD default).time - ev.time + 1) + 1 }, ?_, rfl, ?_, ?_⟩
    · unfold translateHoldBranch
      rw [translateHold1_true_eq]
      exact holdFold_channelEvents .TranslateEvent translateStore _ (hnd.filter _) e he r es ev hch
    · change (((r.active e).getD default).time - ev.time + 1) + 1
        = ((r.active e).getD default).time - ev.time + 2
      omega
    · intro hle
      constructor
      · exact hle
      · change ((r.active e).getD default).time
          < ev.time + ((((r.active e).getD default).time - ev.time + 1) + 1)
        omega
  · intro es ev he hch
    refine ⟨{ ev with
        data := rotateStore ev.data
          (asSizeT (((r.active e).getD default).time - ev.time + 1))
          ((r.input e).getD default)
        length := (((r.active e).getD default).time - ev.time + 1) + 1 }, ?_, rfl, ?_, ?_⟩
    · unfold rotateHoldBranch rotateHold1
      exact holdFold_channelEvents .RotateEvent rotateStore _ (hnd.filter _) e he r es ev hch
    · change (((r.active e).getD default).time - ev.time + 1) + 1
        = ((r.active e).getD default).time - ev.time + 2
      omega
    · intro hle
      constructor
      · exact hle
      · change ((r.active e).getD default).time
          < ev.time + ((((r.active e).getD default).time - ev.time + 1) + 1)
        omega
  · intro es ev he hch
    refine ⟨{ ev with
        data := scaleStore ev.data
          (asSizeT (((r.active e).getD default).time - ev.time + 1))
          ((r.input e).getD default)
        length := (((r.active e).getD default).time - ev.time + 1) + 1 }, ?_, rfl, ?_, ?_⟩
    · unfold scaleHoldBranch scaleHold1
      exact holdFold_channelEvents .ScaleEvent scaleStore _ (hnd.filter _) e he r es ev hch
    · change (((r.active e).getD default).time - ev.time + 1) + 1
        = ((r.active e).getD default).time - ev.time + 2
      omega
    · intro hle
      constructor
      · exact hle
      · change ((r.active e).getD default).time
          < ev.time + ((((r.active e).getD default).time - ev.time + 1) + 1)
        omega

/-- Witness for C1 at a concrete registry: pressing entity 0 of `wAll`
appends exactly one fresh length-1 translate event after the one
already recorded on its translate channel. -/
theorem C1_press_pushes_hold_extends_witness :
    wAll.order.Nodup
    ∧ 0 ∈ viewTranslatePress wAll
    ∧ channelEvents ((translatePressBranch true wAll).track 0) .TranslateEvent
        = channelEvents (wAll.track 0) .TranslateEvent
          ++ [{ time := ((wAll.activated 0).getD default).time + 1, length := 1,
                color := (wAll.color 0).getD default, type := .TranslateEvent,
                data := .translateData default [default] }] :=
  ⟨by decide, by decide,
    (C1_press_pushes_hold_extends wAll 0 (by decide)).1 (by decide)⟩

/-- C2: on every recording hold frame of an entity whose track has the
tool's channel, the hold branch stores the input delta (`input.delta`
for translate, `input.delta.x` for rotate and scale) into the last
event's payload at index `state.time - event.time + 1` — overwriting
the element when the index already exists in the payload vector and
appending otherwise — and then sets the event's length to `index + 1`.
The index is compared to the vector size after the C++ `int`-to-`size_t`
conversion, which is the identity on in-range non-negative indices. -/
theorem C2_hold_payload_mapping (r : Registry) (e : Entity) (hnd : r.order.Nodup) :
    (∀ es ev off ps, e ∈ viewTranslateHold r →
      channelEvents (r.track e) .TranslateEvent = es ++ [ev] →
      ev.data = .translateData off ps →
      channelEvents ((translateHoldBranch true r).track e) .TranslateEvent
        = es ++ [{ ev with
            data := .translateData off
              (if ps.length > asSizeT (((r.active e).getD default).time - ev.time + 1) then
                ps.set (asSizeT (((r.active e).getD default).time - ev.time + 1))
                  ((r.input e).getD default).delta
              else ps ++ [((r.input e).getD default).delta])
            length := (((r.active e).getD default).time - ev.time + 1) + 1 }])
    ∧ (∀ es ev os, e ∈ viewRotateHold r →
      channelEvents (r.track e) .RotateEvent = es ++ [ev] →
      ev.data = .rotateData os →
      channelEvents ((rotateHoldBranch r).track e) .RotateEvent
        = es ++ [{ ev with
            data := .rotateData
              (if os.length > asSizeT (((r.active e).getD default).time - ev.time + 1) then
                os.set (asSizeT (((r.active e).getD default).time - ev.time + 1))
                  ((r.input e).getD default).delta.x
              else os ++ [((r.input e).getD default).delta.x])
            length := (((r.active e).getD default).time - ev.time + 1) + 1 }])
    ∧ (∀ es ev ss, e ∈ viewScaleHold r →
      channelEvents (r.track e) .ScaleEvent = es ++ [ev] →
      ev.data = .scaleData ss →
      channelEvents ((scaleHoldBranch r).track e) .ScaleEvent
        = es ++ [{ ev with
            data := .scaleData
              (if ss.length > asSizeT (((r.active e).getD default).time - ev.time + 1) then
                ss.set (asSizeT (((r.active e).getD default).time - ev.time + 1))
                  ((r.input e).getD default).delta.x
              else ss ++ [((r.input e).getD default).delta.x])
            length := (((r.active e).getD default).time - ev.time + 1) + 1 }])
    ∧ (∀ i : Int, 0 ≤ i → i < 2 ^ 64 → asSizeT i = i.toNat) := by
  refine ⟨?_, ?_, ?_, ?_⟩
  · intro es ev off ps he hch hdata
    unfold translateHoldBranch
    rw [translateHold1_true_eq]
    rw [holdFold_channelEvents .TranslateEvent translateStore (viewTranslateHold r)
        (hnd.filter _) e he r es ev hch,
      hdata]
    simp [translateStore, storeAt]
  · intro es ev os he hch hdata
    unfold rotateHoldBranch rotateHold1
    rw [holdFold_channelEvents .RotateEvent rotateStore (viewRotateHold r)
        (hnd.filter _) e he r es ev hch,
      hdata]
    simp [rotateStore, storeAt]
  · intro es ev ss he hch hdata
    unfold scaleHoldBranch scaleHold1
    rw [holdFold_channelEvents .ScaleEvent scaleStore (viewScaleHold r)
        (hnd.filter _) e he r es ev hch,
      hdata]
    simp [scaleStore, storeAt]
  · intro i h1 h2
    unfold asSizeT
    rw [Int.emod_eq_of_lt h1 h2]

/-- Witness for C2 at a concrete registry: a hold frame at time 6 on
entity 0 of `wAll`, whose translate channel's last event starts at time
4, stores the delta at index 3 (appending, since the payload holds one
element) and sets the event length to 4. -/
theorem C2_hold_payload_mapping_witness :
    wAll.order.Nodup
    ∧ 0 ∈ viewTranslateHold wAll
    ∧ channelEvents (wAll.track 0) .TranslateEvent
        = [] ++ [{ time := 4, length := 1, color := .raw 5, type := .TranslateEvent,
                   data := .translateData { x := 0, y := 0 } [{ x := 0, y := 0 }] }]
    ∧ channelEvents ((translateHoldBranch true wAll).track 0) .TranslateEvent
        = [] ++ [{ time := 4
                   length := (((wAll.active 0).getD default).time - 4 + 1) + 1
                   color := .raw 5
                   type := .TranslateEvent
                   data := .translateData { x := 0, y := 0 }
                     (if [({ x := 0, y := 0 } : Position)].length
                          > asSizeT (((wAll.active 0).getD default).time - 4 + 1) then
                        [({ x := 0, y := 0 } : Position)].set
                          (asSizeT (((wAll.active 0).getD default).time - 4 + 1))
                          ((wAll.input 0).getD default).delta
                      else [({ x := 0, y := 0 } : Position)]
                          ++ [((wAll.input 0).getD default).delta]) }] :=
  ⟨by decide, by decide, by decide,
    (C2_hold_payload_mapping wAll 0 (by decide)).1 []
      { time := 4, length := 1, color := .raw 5, type := .TranslateEvent,
        data := .translateData { x := 0, y := 0 } [{ x := 0, y := 0 }] }
      { x := 0, y := 0 } [{ x := 0, y := 0 }] (by decide) (by decide) rfl⟩

/-- C5 (amended): `TranslateTool` (when recording), `RotateTool` and
`ScaleTool` record their events onto the pressed entity's own
`Sequentity::Track`, creating it from the entity's `Name` text and
`Color` when absent; but `SelectTool` and `ScrubTool` record nothing —
neither ever touches any entity's track. -/
theorem C5_per_entity_track_amended (r : Registry) (e : Entity) (hnd : r.order.Nodup) :
    (e ∈ viewTranslatePress r → r.track e = none →
      ∃ t, (translatePressBranch true r).track e = some t
        ∧ t.label = ((r.name e).getD default).text
        ∧ t.color = (r.color e).getD default
        ∧ channelEvents (some t) .TranslateEvent
            = [{ time := ((r.activated e).getD default).time + 1, length := 1,
                 color := (r.color e).getD default, type := .TranslateEvent,
                 data := .translateData default [default] }])
    ∧ (e ∈ viewRotatePress r → r.track e = none →
      ∃ t, (rotatePressBranch r).track e = some t
        ∧ t.label = ((r.name e).getD default).text
        ∧ t.color = (r.color e).getD default
        ∧ channelEvents (some t) .RotateEvent
            = [{ time := ((r.activated e).getD default).time + 1, length := 1,
                 color := (r.color e).getD default, type := .RotateEvent,
                 data := .rotateData [0] }])
    ∧ (e ∈ viewScalePress r → r.track e = none →
      ∃ t, (scalePressBranch r).track e = some t
        ∧ t.label = ((r.name e).getD default).text
        ∧ t.color = (r.color e).getD default
        ∧ channelEvents (some t) .ScaleEvent
            = [{ time := ((r.activated e).getD default).time + 1, length := 1,
                 color := (r.color e).getD default, type := .ScaleEvent,
                 data := .scaleData [0] }])
    ∧ (∀ rec p x, (SelectTool rec r p).1.track x = r.track x)
    ∧ (∀ rec p x, (ScrubTool rec r p).1.track x = r.track x) := by
  refine ⟨?_, ?_, ?_, fun rec p x => SelectTool_track rec r p x,
    fun rec p x => ScrubTool_track rec r p x⟩
  · intro he htr
    refine ⟨translatePressCore ((r.name e).getD default) ((r.activated e).getD default)
      ((r.color e).getD default) (r.track e), ?_, ?_, ?_, ?_⟩
    · unfold translatePressBranch
      exact translatePressFold_track (viewTranslatePress r) (hnd.filter _) e he r
    · rw [htr, translatePressCore_eq]
      exact (pressCore_label_none _ _ _ _ _ _ _).1
    · rw [htr, translatePressCore_eq]
      exact (pressCore_label_none _ _ _ _ _ _ _).2
    · rw [htr, translatePressCore_eq]
      have h := pressCore_channelEvents .TranslateEvent "Translate" (.hsv 0 75 75)
        (.translateData default [default]) ((r.name e).getD default)
        ((r.activated e).getD default) ((r.color e).getD default) none
      simpa [channelEvents] using h
  · intro he htr
    refine ⟨rotatePressCore ((r.name e).getD default) ((r.activated e).getD default)
      ((r.color e).getD default) (r.track e), ?_, ?_, ?_, ?_⟩
    · unfold rotatePressBranch rotatePress1
      exact transformPressFold_track rotatePressCore (viewRotatePress r) (hnd.filter _) e he r
    · rw [htr, rotatePressCore_eq]
      exact (pressCore_label_none _ _ _ _ _ _ _).1
    · rw [htr, rotatePressCore_eq]
      exact (pressCore_label_none _ _ _ _ _ _ _).2
    · rw [htr, rotatePressCore_eq]
      have h := pressCore_channelEvents .RotateEvent "Rotate" (.hsv 33 75 75)
        (.rotateData [0]) ((r.name e).getD default)
        ((r.activated e).getD default) ((r.color e).getD default) none
      simpa [channelEvents] using h
  · intro he htr
    refine ⟨scalePressCore ((r.name e).getD default) ((r.activated e).getD default)
      ((r.color e).getD default) (r.track e), ?_, ?_, ?_, ?_⟩
    · unfold scalePressBranch scalePress1
      exact transformPressFold_track scalePressCore (viewScalePress r) (hnd.filter _) e he r
    · rw [htr, scalePressCore_eq]
      exact (pressCore_label_none _ _ _ _ _ _ _).1
    · rw [htr, scalePressCore_eq]
      exact (pressCore_label_none _ _ _ _ _ _ _).2
    · rw [htr, scalePressCore_eq]
      have h := pressCore_channelEvents .ScaleEvent "Scale" (.hsv 52 75 50)
        (.scaleData [0]) ((r.name e).getD default)
        ((r.activated e).getD default) ((r.color e).getD default) none
      simpa [channelEvents] using h

/-- Witness for C5 at a concrete registry: pressing track-less entity 2
of `wAll` creates its track from its name and colour with one translate
event, while `SelectTool` leaves its (absent) track absent. -/
theorem C5_per_entity_track_amended_witness :
    wAll.order.Nodup
    ∧ 2 ∈ viewTranslatePress wAll
    ∧ wAll.track 2 = none
    ∧ (∃ t, (translatePressBranch true wAll).track 2 = some t
        ∧ t.label = ((wAll.name 2).getD default).text
        ∧ t.color = (wAll.color 2).getD default
        ∧ channelEvents (some t) .TranslateEvent
            = [{ time := ((wAll.activated 2).getD default).time + 1, length := 1,
                 color := (wAll.color 2).getD default, type := .TranslateEvent,
                 data := .translateData default [default] }])
    ∧ (SelectTool true wAll 0).1.track 2 = wAll.track 2 :=
  ⟨by decide, by decide, by decide,
    (C5_per_entity_track_amended wAll 2 (by decide)).1 (by decide) (by decide),
    (C5_per_entity_track_amended wAll 2 (by decide)).2.2.2.1 true 0 2⟩

/-- Counterexample for C5 as stated: entity 2 of `wAll` has every
component `SelectTool`'s press branch requires, is `Activated` and
`Active`, and has no track — yet after `SelectTool` it still has no
track: no event was recorded and no track was created. -/
theorem C5_select_records_nothing_cex :
    (wAll.name 2).isSome = true
    ∧ (wAll.activated 2).isSome = true
    ∧ (wAll.active 2).isSome = true
    ∧ wAll.track 2 = none
    ∧ (SelectTool true wAll 0).1.track 2 = none := by
  refine ⟨by decide, by decide, by decide, by decide, by decide⟩

/-- C8: after the press branch of `SelectTool`, `TranslateTool`,
`RotateTool` or `ScaleTool` has processed one or more `Activated`
entities, exactly one entity is `Selected`, namely the last processed
one — each iteration resets every `Selected` component before assigning
its own — so at most one entity carries `Selected`. -/
theorem C8_single_selection (rec : Bool) (r : Registry) (p : Int) :
    (∀ (h : viewSelectPress r ≠ []) (y : Entity),
      ((SelectTool rec r p).1.selected y = true ↔ y = (viewSelectPress r).getLast h))
    ∧ (∀ (h : viewTranslatePress r ≠ []) (y : Entity),
      ((TranslateTool rec r p).1.selected y = true ↔ y = (viewTranslatePress r).getLast h))
    ∧ (∀ (h : viewRotatePress r ≠ []) (y : Entity),
      ((RotateTool rec r p).1.selected y = true ↔ y = (viewRotatePress r).getLast h))
    ∧ (∀ (h : viewScalePress r ≠ []) (y : Entity),
      ((ScaleTool rec r p).1.selected y = true ↔ y = (viewScalePress r).getLast h)) := by
  refine ⟨?_, ?_, ?_, ?_⟩ <;> intro h y
  · rw [SelectTool_selected rec r p h]
    by_cases hy : y = (viewSelectPress r).getLast h <;> simp [hy]
  · rw [TranslateTool_selected rec r p h]
    by_cases hy : y = (viewTranslatePress r).getLast h <;> simp [hy]
  · rw [RotateTool_selected rec r p h]
    by_cases hy : y = (viewRotatePress r).getLast h <;> simp [hy]
  · rw [ScaleTool_selected rec r p h]
    by_cases hy : y = (viewScalePress r).getLast h <;> simp [hy]

/-- Witness for C8 at a concrete registry: all four press views of
`wAll` are `[0, 1, 2]`, and after each tool the selected entity is
entity 2, the last one processed. -/
theorem C8_single_selection_witness :
    (SelectTool true wAll 0).1.selected 2 = true
    ∧ (TranslateTool true wAll 0).1.selected 2 = true
    ∧ (RotateTool true wAll 0).1.selected 2 = true
    ∧ (ScaleTool true wAll 0).1.selected 2 = true :=
  ⟨((C8_single_selection true wAll 0).1 (by decide) 2).mpr (by decide),
    ((C8_single_selection true wAll 0).2.1 (by decide) 2).mpr (by decide),
    ((C8_single_selection true wAll 0).2.2.1 (by decide) 2).mpr (by decide),
    ((C8_single_selection true wAll 0).2.2.2 (by decide) 2).mpr (by decide)⟩

/-- C10: calling `TranslateContext::record(time)` in the `_Active`
state with `_begin_time > time` transitions the context to `_None` and
returns immediately, leaving the registry — tracks, channels and
events — completely unchanged. -/
theorem C10_ctx_record_abort_on_rewind (c : TranslateContext) (time : Int) (r : Registry)
    (h1 : c._state = ._Active) (h2 : c._begin_time > time) :
    TranslateContext.record c time r = ({ c with _state := ._None }, r) := by
  simp [TranslateContext.record, h1, h2]

/-- Witness for C10 at a concrete context: `wCtx` is `_Active` with
begin time 10, and recording frame 5 aborts to `_None` with the
registry untouched. -/
theorem C10_ctx_record_abort_on_rewind_witness :
    wCtx._state = ._Active
    ∧ wCtx._begin_time > 5
    ∧ TranslateContext.record wCtx 5 wAll = ({ wCtx with _state := ._None }, wAll) :=
  ⟨by decide, by decide, C10_ctx_record_abort_on_rewind wCtx 5 wAll (by decide) (by decide)⟩

end Tools
